import Mathlib

/-!
Verification of the fraud-detection prototype (rules.py, model.py, app.py).

Modelling conventions:
* Python strings are modelled as lists of characters (abbreviation Str below),
  so that splitting, prefix/suffix tests and counting are plain structural
  recursion.
* Python dicts for orders are modelled as a structure of Option fields; a
  missing key is None, and dict.get(k, "") becomes Option.getD.
* Python float arithmetic (probabilities, the 0.0005 coefficient, round(x, 2))
  is modelled over the rationals, except the numpy sigmoid which uses Real.exp.
* The Python global random generator (a deterministic state machine seeded once
  at module import) is modelled by explicit state passing: the state is the
  stream of raw draws the generator will produce, and each stdlib primitive
  (randint, random, choice, choices, sample) consumes draws deterministically.
-/

/-- Python strings are modelled as lists of characters. -/
abbrev Str := List Char

/-! ## rules.py -/

/-- DISPOSABLE_DOMAINS from rules.py (a Python set, modelled as a list used
only through membership). -/
def DISPOSABLE_DOMAINS : List Str :=
  ["tempmail.com".data, "fakeemail.com".data, "disposable.com".data]

/-- is_address_mismatch from rules.py: mismatched iff the two address strings
are not identical. -/
def is_address_mismatch (billing_address shipping_address : Str) : Bool :=
  billing_address ≠ shipping_address

/-- Python str.split(sep) for a one-character separator: splits on every
occurrence, keeping empty chunks, and never returns an empty list. -/
def splitOnChar (c : Char) : Str → List Str
  | [] => [[]]
  | x :: xs =>
    if x = c then [] :: splitOnChar c xs
    else
      match splitOnChar c xs with
      | r :: rs => (x :: r) :: rs
      | [] => [[x]]

/-- Python str.lower, character by character. -/
def lowerStr (s : Str) : Str := s.map Char.toLower

/-- is_suspicious_email from rules.py: email.split("@")[1].lower() must be a
disposable domain; an IndexError (fewer than two chunks, i.e. no at-sign)
returns false. -/
def is_suspicious_email (email : Str) : Bool :=
  match splitOnChar '@' email with
  | _ :: d :: _ => decide (lowerStr d ∈ DISPOSABLE_DOMAINS)
  | _ => false

/-- is_suspicious_phone from rules.py, with the source's early returns written
as nested conditionals; phone[0] is only reached when the length is at least
4, so the headD default is never used. -/
def is_suspicious_phone (phone : Str) : Bool :=
  if phone.length < 4 then true
  else if phone.count (phone.headD ' ') = phone.length then true
  else if ("000".data.isPrefixOf phone) || ("999".data.isPrefixOf phone) then true
  else if ("0000".data.isSuffixOf phone) || ("1111".data.isSuffixOf phone) then true
  else false

/-- An order dict as consumed by apply_rules and the ingest handler: a missing
key is modelled as none (Python dict.get with default, or KeyError on direct
indexing). -/
structure OrderDict where
  order_id : Option Nat
  billing_address : Option Str
  shipping_address : Option Str
  email : Option Str
  phone : Option Str
  ip_address : Option Str
  amount : Option Nat
deriving DecidableEq

/-- The flag mapping returned by apply_rules, in the source's dict insertion
order: mismatch, suspicious_email, suspicious_phone, repeated_ip. -/
structure Flags where
  mismatch : Bool
  suspicious_email : Bool
  suspicious_phone : Bool
  repeated_ip : Bool
deriving DecidableEq

/-- apply_rules from rules.py. The seen-IP set is threaded as state so that
non-mutation is a provable statement rather than a modelling assumption: the
body only reads the state. Each field uses order.get(key, "") semantics. -/
def apply_rules (order : OrderDict) : StateM (List Str) Flags := do
  let seen_ips ← get
  pure
    { mismatch := is_address_mismatch (order.billing_address.getD [])
        (order.shipping_address.getD [])
      suspicious_email := is_suspicious_email (order.email.getD [])
      suspicious_phone := is_suspicious_phone (order.phone.getD [])
      repeated_ip := decide ((order.ip_address.getD []) ∈ seen_ips) }

/-! ## app.py: the Ingest Next Order handler -/

/-- Python round-half-to-even of a rational to an integer (the semantics of
the builtin round on ties). -/
def round_half_even (q : ℚ) : ℤ :=
  let n : ℤ := ⌊q⌋
  let frac : ℚ := q - n
  if frac < 1/2 then n
  else if 1/2 < frac then n + 1
  else if n % 2 = 0 then n
  else n + 1

/-- Python round(x, 2), modelled over the rationals. -/
def round2 (q : ℚ) : ℚ := (round_half_even (q * 100) : ℚ) / 100

/-- Python int() applied to a boolean flag, as used when building the feature
vector in app.py. -/
def bq (b : Bool) : ℚ := if b then 1 else 0

/-- The inference-time feature vector built in app.py lines 37-43: the four
rule flags as 0/1 in dict order, then amount scaled to thousands. -/
def inference_features (flags : Flags) (amount : Nat) : List ℚ :=
  [bq flags.mismatch, bq flags.suspicious_email, bq flags.suspicious_phone,
   bq flags.repeated_ip, (amount : ℚ) / 1000]

/-- any(flags.values()) over the dict insertion order. -/
def any_flags (flags : Flags) : Bool :=
  flags.mismatch || flags.suspicious_email || flags.suspicious_phone || flags.repeated_ip

/-- app.py line 50: flagged = (risk_percent >= threshold or any(flags.values()))
with threshold = 50.0. -/
def flagged_decision (risk_percent : ℚ) (flags : Flags) : Bool :=
  decide (50 ≤ risk_percent) || any_flags flags

/-- Python round(risk_prob * 100, 2) applied to the model probability. -/
def risk_percent_of (risk_prob : ℚ) : ℚ := round2 (risk_prob * 100)

/-- The triggered-rule display names of app.py lines 63-64: rule keys with
underscores replaced by spaces and title-cased, kept in dict order. -/
def triggered_rules (flags : Flags) : List Str :=
  (if flags.mismatch then ["Mismatch".data] else []) ++
  (if flags.suspicious_email then ["Suspicious Email".data] else []) ++
  (if flags.suspicious_phone then ["Suspicious Phone".data] else []) ++
  (if flags.repeated_ip then ["Repeated Ip".data] else [])

/-- One row of st.session_state.processed_orders (result_entry in app.py).
The Flagged column is the literal "Yes"/"No" string the source stores and the
Alerts column is the comma-joined rule names. -/
structure ResultEntry where
  order_id : Nat
  email : Str
  phone : Str
  billing_address : Str
  shipping_address : Str
  amount : Nat
  risk_percent : ℚ
  flagged : Str
  alerts : Str
deriving DecidableEq

/-- Outcome of one run of the Ingest Next Order handler body on one order:
err is the KeyError raised (none on success) with the missing key's name;
flags is the rule mapping computed at the start of the handler; processed and
seen are the session-state lists after the run (mutations that happened before
the KeyError are kept, as Streamlit session state survives the exception). -/
structure IngestOut where
  err : Option Str
  flags : Flags
  processed : List ResultEntry
  seen : List Str
deriving DecidableEq

/-- Python set.add on the seen-IP set, modelled on a duplicate-free-by-use
list: inserts only when absent. -/
def seen_add (ip : Str) (seen : List Str) : List Str :=
  if ip ∈ seen then seen else ip :: seen

/-- The body of the Ingest Next Order handler in app.py (lines 36-71) for one
order. M is the opaque trained classifier: model.predict_proba(features)[0][1].
Dict accesses by key follow the source order: flags (with get-defaults), then
order['amount'] for the features, then the result_entry fields, the append,
and finally seen_ips.add(order['ip_address']); a missing key stops the handler
with that key's name as the KeyError. -/
def ingest (M : List ℚ → ℚ) (next_order : OrderDict) (seen : List Str)
    (processed : List ResultEntry) : IngestOut :=
  let flags := ((apply_rules next_order).run seen).1
  match next_order.amount with
  | none => ⟨some ("amount".data), flags, processed, seen⟩
  | some amt =>
    let features := inference_features flags amt
    let risk_prob := M features
    let risk_percent := risk_percent_of risk_prob
    let flagged := flagged_decision risk_percent flags
    match next_order.order_id with
    | none => ⟨some ("order_id".data), flags, processed, seen⟩
    | some oid =>
      match next_order.email with
      | none => ⟨some ("email".data), flags, processed, seen⟩
      | some em =>
        match next_order.phone with
        | none => ⟨some ("phone".data), flags, processed, seen⟩
        | some ph =>
          match next_order.billing_address with
          | none => ⟨some ("billing_address".data), flags, processed, seen⟩
          | some ba =>
            match next_order.shipping_address with
            | none => ⟨some ("shipping_address".data), flags, processed, seen⟩
            | some sa =>
              let entry : ResultEntry :=
                { order_id := oid, email := em, phone := ph,
                  billing_address := ba, shipping_address := sa, amount := amt,
                  risk_percent := risk_percent,
                  flagged := if flagged then ("Yes".data) else ("No".data),
                  alerts :=
                    if triggered_rules flags = [] then []
                    else List.intercalate (", ".data) (triggered_rules flags) }
              let processed1 := processed ++ [entry]
              match next_order.ip_address with
              | none => ⟨some ("ip_address".data), flags, processed1, seen⟩
              | some ip => ⟨none, flags, processed1, seen_add ip seen⟩

/-- An order carrying every key the handler accesses (the shape produced by
the generator and consumed without KeyError). -/
def completeOrder (o : OrderDict) : Bool :=
  o.order_id.isSome && o.billing_address.isSome && o.shipping_address.isSome &&
  o.email.isSome && o.phone.isSome && o.ip_address.isSome && o.amount.isSome

/-- The session state the handler reads and writes: the pending queue, the
processed-orders table and the seen-IP set. -/
structure AppState where
  new_orders : List OrderDict
  processed : List ResultEntry
  seen_ips : List Str
deriving DecidableEq

/-- One click of the Ingest Next Order button: pop the head order (the pop
happens before any KeyError, so the queue advances regardless) and run the
handler body; an empty queue leaves the state unchanged. The second component
reports the flags computed for the popped order, if any. -/
def ingest_next (M : List ℚ → ℚ) (s : AppState) : AppState × Option Flags :=
  match s.new_orders with
  | [] => (s, none)
  | o :: rest =>
    let r := ingest M o s.seen_ips s.processed
    (⟨rest, r.processed, r.seen⟩, some r.flags)

/-- Iterated clicks of the Ingest Next Order button. -/
def steps (M : List ℚ → ℚ) (s : AppState) : Nat → AppState
  | 0 => s
  | n + 1 => steps M (ingest_next M s).1 n

/-! ## model.py: synthetic data generator and trainer

The Python global random generator is seeded once at module import
(random.seed(42) at model.py line 7) and never reseeded; generate_mock_data
takes no seed argument. We model the generator's state as the stream of raw
draws it will produce (any deterministic generator is determined by that
stream), and each stdlib primitive consumes draws from it. -/

/-- State of the ambient random generator: the stream of raw draws it will
hand out, most imminent first. -/
abbrev RngState := List Nat

/-- Take one raw draw from the generator state. -/
def draw (s : RngState) : Nat × RngState := (s.headD 0, s.tail)

/-- Model of random.randint(a, b): one draw mapped into [a, b]. -/
def py_randint (a b : Nat) (s : RngState) : Nat × RngState :=
  let (v, s1) := draw s
  (a + v % (b + 1 - a), s1)

/-- Model of random.random(): one draw mapped into a rational in [0, 1)
(written with mkRat so that concrete runs reduce inside the kernel). -/
def py_random (s : RngState) : ℚ × RngState :=
  let (v, s1) := draw s
  (mkRat (v % 1000000) 1000000, s1)

/-- Model of random.choice over a list of strings: one draw picks an index. -/
def py_choice (xs : List Str) (s : RngState) : Str × RngState :=
  let (v, s1) := draw s
  (xs.getD (v % xs.length) [], s1)

/-- Model of random.choices(population, k=k) over characters: k independent
index draws. -/
def py_choices (xs : Str) : Nat → RngState → Str × RngState
  | 0, s => ([], s)
  | k + 1, s =>
    let (v, s1) := draw s
    let (rest, s2) := py_choices xs k s1
    (xs.getD (v % xs.length) ' ' :: rest, s2)

/-- Model of random.sample's selection loop (CPython's pool path): each round
one draw picks an index into the remaining pool, the picked element is
reported and the pool shrinks by swapping in the last element. -/
def py_sample_go {α : Type} [Inhabited α] : List α → Nat → RngState → List α × RngState
  | _, 0, s => ([], s)
  | pool, k + 1, s =>
    let (v, s1) := draw s
    let n := pool.length
    let j := v % n
    let x := pool.getD j default
    let pool1 := (pool.set j (pool.getD (n - 1) default)).take (n - 1)
    let (rest, s2) := py_sample_go pool1 k s1
    (x :: rest, s2)

/-- Model of random.sample(population, k). -/
def py_sample {α : Type} [Inhabited α] (xs : List α) (k : Nat) (s : RngState) :
    List α × RngState :=
  py_sample_go xs k s

/-- random_ip from model.py: four randint octets joined with dots (first and
last in 1..255, middle two in 0..255). -/
def random_ip (s : RngState) : Str × RngState :=
  let (a, s1) := py_randint 1 255 s
  let (b, s2) := py_randint 0 255 s1
  let (c, s3) := py_randint 0 255 s2
  let (d, s4) := py_randint 1 255 s3
  ((toString a).data ++ '.' :: (toString b).data ++ '.' :: (toString c).data ++
    '.' :: (toString d).data, s4)

/-- ip_list = a list of n random IPs, drawn left to right. -/
def gen_ip_list : Nat → RngState → List Str × RngState
  | 0, s => ([], s)
  | n + 1, s =>
    let (ip, s1) := random_ip s
    let (rest, s2) := gen_ip_list n s1
    (ip :: rest, s2)

/-- ip_list[idx] = ip for each sampled idx (the inner for-loop of the repeat
step). -/
def overwrite_idx (l : List Str) (idxs : List Nat) (ip : Str) : List Str :=
  idxs.foldl (fun acc i => acc.set i ip) l

/-- The repeat step of model.py lines 20-24: for each previously sampled
repeat IP, sample min(3, n) positions of range(n) and overwrite them. -/
def repeat_loop : List Str → List Str → Nat → RngState → List Str × RngState
  | ips, [], _, s => (ips, s)
  | ips, ip :: more, n, s =>
    let (idxs, s1) := py_sample (List.range n) (min 3 n) s
    repeat_loop (overwrite_idx ips idxs ip) more n s1

/-- The phone generation of model.py line 59: ten digits drawn one at a time
with randint(0, 9) and concatenated as characters. -/
def gen_phone : Nat → RngState → Str × RngState
  | 0, s => ([], s)
  | k + 1, s =>
    let (d, s1) := py_randint 0 9 s
    let (rest, s2) := gen_phone k s1
    ((toString d).data ++ rest, s2)

/-- The disposable email domains of model.py line 28 (a list there, unlike the
set in rules.py). -/
def disposable_domains : List Str :=
  ["tempmail.com".data, "fakeemail.com".data, "disposable.com".data]

/-- The normal email domains of model.py line 29. -/
def normal_domains : List Str :=
  ["gmail.com".data, "yahoo.com".data, "outlook.com".data, "hotmail.com".data,
   "example.com".data]

/-- The 26 lowercase letters sampled for the email local part. -/
def letters : Str := "abcdefghijklmnopqrstuvwxyz".data

/-- One generated order row before label assignment: the dict appended to
data in model.py lines 67-81, plus the repeated_ip column filled in later
(0 until set_repeated runs). -/
structure RawRow where
  order_id : Nat
  billing_address : Str
  shipping_address : Str
  billing_pin : Nat
  shipping_pin : Nat
  email : Str
  phone : Str
  ip_address : Str
  mismatch : Nat
  suspicious_email : Nat
  suspicious_phone : Nat
  amount : Nat
  repeated_ip : Nat
deriving DecidableEq

/-- The body of the generation loop in model.py lines 31-81 for index i with
its (possibly overwritten) IP. -/
def gen_row (i : Nat) (ip : Str) (s : RngState) : RawRow × RngState :=
  let (pin_code, s1) := py_randint 100000 999999 s
  let (u, s2) := py_random s1
  let (ship_pin, s3) := if u < mkRat 8 10 then (pin_code, s2) else py_randint 100000 999999 s2
  let mismatch : Nat := if ship_pin ≠ pin_code then 1 else 0
  let billing_address :=
    (toString i).data ++ " Green Street, CityX, ".data ++ (toString pin_code).data
  let shipping_address :=
    if mismatch = 0 then billing_address
    else (toString i).data ++ " High Street, CityY, ".data ++ (toString ship_pin).data
  let (u2, s4) := py_random s3
  let (domain, s5) :=
    if u2 < mkRat 1 10 then py_choice disposable_domains s4 else py_choice normal_domains s4
  let (email_user, s6) := py_choices letters 5 s5
  let email := email_user ++ '@' :: domain
  let suspicious_email : Nat := if domain ∈ disposable_domains then 1 else 0
  let (phone, s7) := gen_phone 10 s6
  let (u3, s8) := py_random s7
  let suspicious_phone : Nat :=
    if u3 < mkRat 1 10 || ("000".data.isPrefixOf phone) || ("999".data.isPrefixOf phone) ||
        ("0000".data.isSuffixOf phone) || ("1111".data.isSuffixOf phone) then 1
    else 0
  let (amount, s9) := py_randint 100 5000 s8
  ({ order_id := i + 1, billing_address := billing_address,
     shipping_address := shipping_address, billing_pin := pin_code,
     shipping_pin := ship_pin, email := email, phone := phone, ip_address := ip,
     mismatch := mismatch, suspicious_email := suspicious_email,
     suspicious_phone := suspicious_phone, amount := amount, repeated_ip := 0 }, s9)

/-- The for-loop over range(n), consuming ip_list positionally. -/
def gen_rows_go : Nat → List Str → RngState → List RawRow × RngState
  | _, [], s => ([], s)
  | i, ip :: ips, s =>
    let (r, s1) := gen_row i ip s
    let (rest, s2) := gen_rows_go (i + 1) ips s1
    (r :: rest, s2)

/-- model.py lines 84-85: repeated_ip = 1 for every row whose IP occurs more
than once in the whole dataset (value_counts over the ip_address column). -/
def set_repeated (rows : List RawRow) : List RawRow :=
  let ips := rows.map (fun r => r.ip_address)
  rows.map (fun r => { r with repeated_ip := if 1 < ips.count r.ip_address then 1 else 0 })

/-- generate_mock_data up to and including the repeated_ip column (everything
computable; the label synthesis follows separately, as in the source). -/
def generate_raw (n : Nat) (s : RngState) : List RawRow × RngState :=
  let (ips0, s1) := gen_ip_list n s
  let (rep, s2) := py_sample ips0 (min 3 n) s1
  let (ips, s3) := repeat_loop ips0 rep n s2
  let (rows, s4) := gen_rows_go 0 ips s3
  (set_repeated rows, s4)

/-- The linear score of model.py lines 98-105: coefficients 1.0, 1.2, 0.8,
1.0 on the four flag columns, 0.0005 on amount, intercept -2.4. -/
def linear_score (mismatch suspicious_email suspicious_phone repeated_ip amount : Nat) : ℚ :=
  (mismatch : ℚ) * 1 + (suspicious_email : ℚ) * 1.2 + (suspicious_phone : ℚ) * 0.8 +
    (repeated_ip : ℚ) * 1 + (amount : ℚ) * 0.0005 + (-2.4)

/-- The logistic function 1 / (1 + exp(-x)) of model.py line 106. -/
noncomputable def sigmoid (x : ℝ) : ℝ := 1 / (1 + Real.exp (-x))

/-- model.py line 107: fraud_label = 1 iff the sigmoid of the linear score
strictly exceeds 0.5. -/
noncomputable def fraud_label (mismatch suspicious_email suspicious_phone repeated_ip amount : Nat) : Nat :=
  letI := Classical.dec
    ((1/2 : ℝ) < sigmoid ((linear_score mismatch suspicious_email suspicious_phone repeated_ip amount : ℚ) : ℝ))
  if (1/2 : ℝ) < sigmoid ((linear_score mismatch suspicious_email suspicious_phone repeated_ip amount : ℚ) : ℝ)
  then 1 else 0

/-- A fully generated dataset row: the raw columns plus the fraud_label
column. -/
structure Row where
  raw : RawRow
  fraud_label : Nat
deriving DecidableEq

/-- Attach the synthesized label to a raw row. -/
noncomputable def add_label (r : RawRow) : Row :=
  ⟨r, fraud_label r.mismatch r.suspicious_email r.suspicious_phone r.repeated_ip r.amount⟩

/-- generate_mock_data(n) from model.py, as a function of the ambient random
generator state it consumes. -/
noncomputable def generate_mock_data (n : Nat) (s : RngState) : List Row × RngState :=
  let (rows, s1) := generate_raw n s
  (rows.map add_label, s1)

/-- The training-time feature extraction of train_model (model.py lines
116-119): the columns mismatch, suspicious_email, suspicious_phone,
repeated_ip, amount in that order, with amount divided by 1000. -/
def train_features (row : Row) : List ℚ :=
  [(row.raw.mismatch : ℚ), (row.raw.suspicious_email : ℚ),
   (row.raw.suspicious_phone : ℚ), (row.raw.repeated_ip : ℚ),
   (row.raw.amount : ℚ) / 1000]

/-! ## Spec-side definitions used to compare claims against the code -/

/-- Join chunks back together with the given separator character. -/
def joinWith (c : Char) : List Str → Str
  | [] => []
  | [x] => x
  | x :: xs => x ++ c :: joinWith c xs

/-- Written from the claim's wording, for comparison with the source's
is_suspicious_email: true iff the email contains an at-sign and the entire
substring after the FIRST at-sign, lower-cased, is a disposable domain. -/
def spec_suspicious_email (email : Str) : Bool :=
  match splitOnChar '@' email with
  | _ :: d :: rest => decide (lowerStr (joinWith '@' (d :: rest)) ∈ DISPOSABLE_DOMAINS)
  | _ => false

/-- Substituting empty strings for any missing get-defaulted keys leaves
apply_rules unchanged (the silent-default behaviour of C10). -/
def fill_empty (o : OrderDict) : OrderDict :=
  { o with
    billing_address := some (o.billing_address.getD [])
    shipping_address := some (o.shipping_address.getD [])
    email := some (o.email.getD [])
    phone := some (o.phone.getD [])
    ip_address := some (o.ip_address.getD []) }

/-- Field name f is a key the handler reads by direct indexing and is absent
from the order, listed in the handler's access order. -/
def missingField (o : OrderDict) (f : Str) : Prop :=
  (f = "amount".data ∧ o.amount = none) ∨
  (f = "order_id".data ∧ o.order_id = none) ∨
  (f = "email".data ∧ o.email = none) ∨
  (f = "phone".data ∧ o.phone = none) ∨
  (f = "billing_address".data ∧ o.billing_address = none) ∨
  (f = "shipping_address".data ∧ o.shipping_address = none) ∨
  (f = "ip_address".data ∧ o.ip_address = none)


/-! ## Claims -/

/-- Helper: the count-based all-equal test of is_suspicious_phone agrees with
the pointwise statement about the first character. -/
theorem count_headD_eq_length_iff (p : Str) :
    (p.count (p.headD ' ') = p.length) ↔ (∀ c ∈ p, p.head? = some c) := by
  cases p with
  | nil => simp
  | cons a t =>
    rw [List.count_eq_length]
    simp only [List.headD_cons, List.head?_cons, Option.some.injEq]

/-- C8: for every phone string, suspicious_phone is true iff the length is
below 4, or every character equals the first character, or the string starts
with 000 or 999, or it ends with 0000 or 1111. -/
theorem C8_suspicious_phone_characterization (p : Str) :
    is_suspicious_phone p = true ↔
      (p.length < 4 ∨ (∀ c ∈ p, p.head? = some c) ∨
       "000".data.isPrefixOf p = true ∨ "999".data.isPrefixOf p = true ∨
       "0000".data.isSuffixOf p = true ∨ "1111".data.isSuffixOf p = true) := by
  simp only [is_suspicious_phone]
  split_ifs with h1 h2 h3 h4
  · exact iff_of_true rfl (Or.inl h1)
  · exact iff_of_true rfl (Or.inr (Or.inl ((count_headD_eq_length_iff p).mp h2)))
  · rcases Bool.or_eq_true_iff.mp h3 with h | h
    · exact iff_of_true rfl (Or.inr (Or.inr (Or.inl h)))
    · exact iff_of_true rfl (Or.inr (Or.inr (Or.inr (Or.inl h))))
  · rcases Bool.or_eq_true_iff.mp h4 with h | h
    · exact iff_of_true rfl (Or.inr (Or.inr (Or.inr (Or.inr (Or.inl h)))))
    · exact iff_of_true rfl (Or.inr (Or.inr (Or.inr (Or.inr (Or.inr h)))))
  · refine iff_of_false (by simp) ?_
    rintro (h | h | h | h | h | h)
    · exact h1 h
    · exact h2 ((count_headD_eq_length_iff p).mpr h)
    · exact h3 (by simp [h])
    · exact h3 (by simp [h])
    · exact h4 (by simp [h])
    · exact h4 (by simp [h])

/-- C9: apply_rules leaves the seen-IP set unchanged, its repeated_ip flag
holds iff the order's IP is a member of the set at call time, and running it
again on the state it leaves behind yields the same flag mapping. -/
theorem C9_apply_rules_frame (o : OrderDict) (seen : List Str) :
    ((apply_rules o).run seen).2 = seen ∧
    (((apply_rules o).run seen).1.repeated_ip = true ↔ (o.ip_address.getD []) ∈ seen) ∧
    ((apply_rules o).run (((apply_rules o).run seen).2)).1 = ((apply_rules o).run seen).1 := by
  refine ⟨rfl, ?_, rfl⟩
  have h : ((apply_rules o).run seen).1.repeated_ip
      = decide ((o.ip_address.getD []) ∈ seen) := rfl
  rw [h]
  exact decide_eq_true_iff

/-- C10: apply_rules never raises on missing keys: each get-defaulted field is
read as the empty string (so the flags equal those of the empty-filled order),
and in particular both addresses missing gives mismatch false, a missing email
gives suspicious_email false, and a missing phone gives suspicious_phone true. -/
theorem C10_missing_keys_default (o : OrderDict) (seen : List Str) :
    ((apply_rules o).run seen).1 = ((apply_rules (fill_empty o)).run seen).1 ∧
    (o.billing_address = none → o.shipping_address = none →
      ((apply_rules o).run seen).1.mismatch = false) ∧
    (o.email = none → ((apply_rules o).run seen).1.suspicious_email = false) ∧
    (o.phone = none → ((apply_rules o).run seen).1.suspicious_phone = true) := by
  refine ⟨rfl, ?_, ?_, ?_⟩
  · intro h1 h2
    simp [apply_rules, h1, h2, is_address_mismatch]
  · intro h
    simp [apply_rules, h]
    rfl
  · intro h
    simp [apply_rules, h]
    rfl

/-- Witness for C10 at the fully empty order dict. -/
theorem C10_missing_keys_default_witness :
    ((apply_rules ⟨none, none, none, none, none, none, none⟩).run []).1.mismatch = false ∧
    ((apply_rules ⟨none, none, none, none, none, none, none⟩).run []).1.suspicious_email = false ∧
    ((apply_rules ⟨none, none, none, none, none, none, none⟩).run []).1.suspicious_phone = true := by
  have h := C10_missing_keys_default ⟨none, none, none, none, none, none, none⟩ []
  exact ⟨h.2.1 rfl rfl, h.2.2.1 rfl, h.2.2.2 rfl⟩

/-- Helper: splitting on a character that does not occur returns the whole
string as the only chunk. -/
theorem splitOnChar_of_not_mem (c : Char) (s : Str) (h : c ∉ s) :
    splitOnChar c s = [s] := by
  induction s with
  | nil => rfl
  | cons x xs ih =>
    have hx : ¬ x = c := fun hxc => h (hxc ▸ List.mem_cons_self x xs)
    have hxs : c ∉ xs := fun hm => h (List.mem_cons_of_mem x hm)
    simp only [splitOnChar, if_neg hx, ih hxs]

/-- C6 counterexample: the source takes split('@')[1], the chunk between the
first and second at-sign, not the whole substring after the first at-sign;
the two disagree on an address with two at-signs whose middle chunk is a
disposable domain. -/
theorem C6_counterexample :
    is_suspicious_email ("a@tempmail.com@b".data) ≠
      spec_suspicious_email ("a@tempmail.com@b".data) := by decide

/-- C6 amended: suspicious_email is true iff splitting on the at-sign yields
at least two chunks and the SECOND chunk (between the first and second
at-sign), lower-cased, is a disposable domain; an email without an at-sign
yields false. -/
theorem C6_amended_second_chunk (e : Str) :
    (is_suspicious_email e = true ↔
      ∃ a d rest, splitOnChar '@' e = a :: d :: rest ∧
        lowerStr d ∈ DISPOSABLE_DOMAINS) ∧
    ('@' ∉ e → is_suspicious_email e = false) := by
  constructor
  · unfold is_suspicious_email
    cases h : splitOnChar '@' e with
    | nil => simp
    | cons a tl =>
      cases tl with
      | nil => simp
      | cons d rest =>
        simp only [decide_eq_true_iff]
        constructor
        · intro hd
          exact ⟨a, d, rest, rfl, hd⟩
        · rintro ⟨a', d', rest', he, hd'⟩
          injection he with h1 h2
          injection h2 with h3 h4
          subst h3
          exact hd'
  · intro h
    unfold is_suspicious_email
    rw [splitOnChar_of_not_mem '@' e h]

/-- Witness for C6: an email with no at-sign is not suspicious. -/
theorem C6_amended_second_chunk_witness :
    is_suspicious_email ("abc".data) = false :=
  (C6_amended_second_chunk ("abc".data)).2 (by decide)

/-- C3: the five-element feature vector built at inference time coincides,
entry by entry and with the same amount scaling, with the training-time
extraction, whenever the boolean flags and the amount carry the same
underlying values as the training row's 0/1 columns. -/
theorem C3_feature_alignment (row : Row) (flags : Flags) (amount : Nat)
    (h1 : row.raw.mismatch = if flags.mismatch then 1 else 0)
    (h2 : row.raw.suspicious_email = if flags.suspicious_email then 1 else 0)
    (h3 : row.raw.suspicious_phone = if flags.suspicious_phone then 1 else 0)
    (h4 : row.raw.repeated_ip = if flags.repeated_ip then 1 else 0)
    (h5 : row.raw.amount = amount) :
    inference_features flags amount = train_features row := by
  obtain ⟨b1, b2, b3, b4⟩ := flags
  cases b1 <;> cases b2 <;> cases b3 <;> cases b4 <;>
    simp_all [inference_features, train_features, bq]

/-- A concrete training row used by the C3 witness. -/
def sample_raw : RawRow :=
  { order_id := 1
    billing_address := []
    shipping_address := []
    billing_pin := 0
    shipping_pin := 0
    email := []
    phone := []
    ip_address := []
    mismatch := 1
    suspicious_email := 0
    suspicious_phone := 1
    amount := 2000
    repeated_ip := 0 }

/-- Witness for C3 at a concrete training row and matching flag record. -/
theorem C3_feature_alignment_witness :
    inference_features ⟨true, false, true, false⟩ 2000 = train_features ⟨sample_raw, 0⟩ :=
  C3_feature_alignment ⟨sample_raw, 0⟩ ⟨true, false, true, false⟩ 2000 rfl rfl rfl rfl rfl

/-- Helper: the boolean flag decision of app.py line 50 holds iff the rounded
risk percentage reaches 50 or some rule flag is set. -/
theorem flagged_decision_eq_true_iff (rp : ℚ) (fl : Flags) :
    flagged_decision rp fl = true ↔ (50 ≤ rp ∨ any_flags fl = true) := by
  simp [flagged_decision]

/-- Helper: the Yes/No string stored in the Flagged column equals Yes exactly
when the boolean decision it was built from is true. -/
theorem yes_string_iff (b : Bool) :
    ((if b then ("Yes".data) else ("No".data)) = "Yes".data) ↔ b = true := by
  cases b <;> decide

/-- Helper: rounding an integer value leaves it unchanged. -/
theorem round_half_even_intCast (n : ℤ) : round_half_even ((n : ℤ) : ℚ) = n := by
  unfold round_half_even
  rw [Int.floor_intCast]
  norm_num

/-- Helper: a model probability of one half rounds to exactly 50 percent. -/
theorem risk_percent_of_half : risk_percent_of (1/2) = 50 := by
  unfold risk_percent_of round2
  have e1 : ((1:ℚ)/2) * 100 * 100 = ((5000 : ℤ) : ℚ) := by norm_num
  rw [e1, round_half_even_intCast]
  norm_num

/-- C1: a complete order processed by the handler is recorded with verdict
Yes iff its rounded risk percentage is at least 50 or at least one rule flag
is true; moreover all flags false with probability exactly 0.5 still flags
the order (inclusive threshold), and any single true flag flags the order
even at model probability 0. -/
theorem C1_flag_policy (M : List ℚ → ℚ) (o : OrderDict) (seen : List Str)
    (processed : List ResultEntry) (hc : completeOrder o = true) :
    (∃ entry, (ingest M o seen processed).processed = processed ++ [entry] ∧
      (entry.flagged = "Yes".data ↔
        50 ≤ entry.risk_percent ∨ any_flags ((ingest M o seen processed).flags) = true)) ∧
    flagged_decision (risk_percent_of (1/2)) ⟨false, false, false, false⟩ = true ∧
    (∀ fl : Flags, any_flags fl = true → flagged_decision (risk_percent_of 0) fl = true) := by
  refine ⟨?_, ?_, ?_⟩
  · obtain ⟨oid, ba, sa, em, ph, ip, amt⟩ := o
    simp only [completeOrder, Bool.and_eq_true, Option.isSome_iff_exists] at hc
    obtain ⟨⟨⟨⟨⟨⟨⟨oidv, rfl⟩, ⟨bav, rfl⟩⟩, ⟨sav, rfl⟩⟩, ⟨emv, rfl⟩⟩, ⟨phv, rfl⟩⟩,
      ⟨ipv, rfl⟩⟩, ⟨amtv, rfl⟩⟩ := hc
    refine ⟨_, rfl, ?_⟩
    simp only [ingest, yes_string_iff, flagged_decision_eq_true_iff]
    split_ifs with h
    · exact iff_of_true rfl h
    · exact iff_of_false (by decide) h
  · rw [risk_percent_of_half]
    decide
  · intro fl h
    simp [flagged_decision, h]

/-- Witness for C1 at a concrete complete order and the constant-zero model. -/
theorem C1_flag_policy_witness :
    (∃ entry,
      (ingest (fun _ => 0)
        ⟨some 1, some ("A St".data), some ("A St".data), some ("a@b.c".data),
         some ("5551234567".data), some ("9.9.9.9".data), some 250⟩ [] []).processed =
        [] ++ [entry] ∧
      (entry.flagged = "Yes".data ↔
        50 ≤ entry.risk_percent ∨ any_flags ((ingest (fun _ => 0)
          ⟨some 1, some ("A St".data), some ("A St".data), some ("a@b.c".data),
           some ("5551234567".data), some ("9.9.9.9".data), some 250⟩ [] []).flags) = true)) ∧
    flagged_decision (risk_percent_of (1/2)) ⟨false, false, false, false⟩ = true ∧
    (∀ fl : Flags, any_flags fl = true → flagged_decision (risk_percent_of 0) fl = true) :=
  C1_flag_policy (fun _ => 0)
    ⟨some 1, some ("A St".data), some ("A St".data), some ("a@b.c".data),
     some ("5551234567".data), some ("9.9.9.9".data), some 250⟩ [] [] (by decide)

/-- Helper: the logistic function exceeds one half exactly on positive
inputs. -/
theorem sigmoid_gt_half_iff (x : ℝ) : (1/2 : ℝ) < sigmoid x ↔ 0 < x := by
  unfold sigmoid
  have hpos : (0:ℝ) < 1 + Real.exp (-x) := by positivity
  rw [lt_div_iff₀ hpos]
  constructor
  · intro h
    have he : Real.exp (-x) < 1 := by nlinarith
    have he2 : Real.exp (-x) < Real.exp 0 := by rwa [Real.exp_zero]
    have h2 : -x < 0 := Real.exp_lt_exp.mp he2
    linarith
  · intro h
    have he : Real.exp (-x) < 1 := by
      rw [← Real.exp_zero]
      exact Real.exp_lt_exp.mpr (by linarith)
    nlinarith

/-- C4: the synthesized ground-truth label is 1 exactly when the logistic
function of the linear score strictly exceeds one half, which happens exactly
when the linear score itself is strictly positive. -/
theorem C4_label_positive_score (m e p r a : Nat) :
    (fraud_label m e p r a = 1 ↔
      (1/2 : ℝ) < sigmoid ((linear_score m e p r a : ℚ) : ℝ)) ∧
    ((1/2 : ℝ) < sigmoid ((linear_score m e p r a : ℚ) : ℝ) ↔
      0 < linear_score m e p r a) := by
  constructor
  · unfold fraud_label
    split_ifs with h
    · simpa using h
    · simpa using h
  · rw [sigmoid_gt_half_iff]
    exact Rat.cast_pos

/-- Helper: whatever branch the handler takes, the flags it reports are the
rule evaluation on the seen-IP set it was given. -/
theorem ingest_flags_eq (M : List ℚ → ℚ) (o : OrderDict) (seen : List Str)
    (processed : List ResultEntry) :
    (ingest M o seen processed).flags = ((apply_rules o).run seen).1 := by
  obtain ⟨oid, ba, sa, em, ph, ip, amt⟩ := o
  cases amt <;> cases oid <;> cases em <;> cases ph <;> cases ba <;> cases sa <;>
    cases ip <;> rfl

/-- Helper: set.add only ever grows the seen-IP set. -/
theorem subset_seen_add (ip : Str) (seen : List Str) : seen ⊆ seen_add ip seen := by
  unfold seen_add
  split
  · exact fun a ha => ha
  · exact fun a ha => List.mem_cons_of_mem _ ha

/-- Helper: one handler run never removes anything from the seen-IP set. -/
theorem seen_subset_ingest (M : List ℚ → ℚ) (o : OrderDict) (seen : List Str)
    (processed : List ResultEntry) :
    seen ⊆ (ingest M o seen processed).seen := by
  obtain ⟨oid, ba, sa, em, ph, ip, amt⟩ := o
  cases amt <;> cases oid <;> cases em <;> cases ph <;> cases ba <;> cases sa <;>
    cases ip <;> first
      | exact fun a ha => ha
      | exact subset_seen_add _ _

/-- Helper: one button click never removes anything from the seen-IP set. -/
theorem seen_subset_ingest_next (M : List ℚ → ℚ) (s : AppState) :
    s.seen_ips ⊆ (ingest_next M s).1.seen_ips := by
  obtain ⟨q, pr, se⟩ := s
  cases q with
  | nil => exact fun a ha => ha
  | cons o rest => exact seen_subset_ingest M o se pr

/-- Helper: a seen IP stays seen across any number of clicks. -/
theorem seen_mem_steps (M : List ℚ → ℚ) (k : Nat) (s : AppState) (x : Str)
    (hx : x ∈ s.seen_ips) : x ∈ (steps M s k).seen_ips := by
  induction k generalizing s with
  | zero => exact hx
  | succ n ih => exact ih _ (seen_subset_ingest_next M s hx)

/-- Helper: after a complete order is handled, its IP is in the seen set. -/
theorem ip_mem_ingest_seen (M : List ℚ → ℚ) (o : OrderDict) (seen : List Str)
    (processed : List ResultEntry) (hc : completeOrder o = true) :
    (o.ip_address.getD []) ∈ (ingest M o seen processed).seen := by
  obtain ⟨oid, ba, sa, em, ph, ip, amt⟩ := o
  simp only [completeOrder, Bool.and_eq_true, Option.isSome_iff_exists] at hc
  obtain ⟨⟨⟨⟨⟨⟨⟨oidv, rfl⟩, ⟨bav, rfl⟩⟩, ⟨sav, rfl⟩⟩, ⟨emv, rfl⟩⟩, ⟨phv, rfl⟩⟩,
    ⟨ipv, rfl⟩⟩, ⟨amtv, rfl⟩⟩ := hc
  show ipv ∈ seen_add ipv seen
  unfold seen_add
  split_ifs with h
  · exact h
  · exact List.mem_cons_self _ _

/-- C2: the handler inserts an order's IP only after computing its flags, so
an order whose IP is fresh gets repeated_ip false, and any later order with
the same IP gets repeated_ip true. -/
theorem C2_repeated_ip_ordering (M : List ℚ → ℚ) (s : AppState) (o1 o2 : OrderDict)
    (rest rest2 : List OrderDict) (k : Nat)
    (h1 : s.new_orders = o1 :: rest)
    (hc : completeOrder o1 = true)
    (hfresh : (o1.ip_address.getD []) ∉ s.seen_ips)
    (hk : (steps M (ingest_next M s).1 k).new_orders = o2 :: rest2)
    (hip : o2.ip_address.getD [] = o1.ip_address.getD []) :
    ((ingest_next M s).2 = some (((apply_rules o1).run s.seen_ips).1) ∧
      ((apply_rules o1).run s.seen_ips).1.repeated_ip = false) ∧
    ((ingest_next M (steps M (ingest_next M s).1 k)).2 =
        some (((apply_rules o2).run (steps M (ingest_next M s).1 k).seen_ips).1) ∧
      ((apply_rules o2).run (steps M (ingest_next M s).1 k).seen_ips).1.repeated_ip = true) := by
  have hflags : ∀ (st : AppState) (o : OrderDict) (r2 : List OrderDict),
      st.new_orders = o :: r2 →
      (ingest_next M st).2 = some (((apply_rules o).run st.seen_ips).1) := by
    intro st o r2 h
    obtain ⟨qq, pp, ss⟩ := st
    simp only at h
    subst h
    simp [ingest_next, ingest_flags_eq]
  constructor
  · refine ⟨hflags s o1 rest h1, ?_⟩
    have hr : ((apply_rules o1).run s.seen_ips).1.repeated_ip
        = decide ((o1.ip_address.getD []) ∈ s.seen_ips) := rfl
    rw [hr, decide_eq_false_iff_not]
    exact hfresh
  · refine ⟨hflags _ o2 rest2 hk, ?_⟩
    have hmem : (o1.ip_address.getD []) ∈ (steps M (ingest_next M s).1 k).seen_ips := by
      apply seen_mem_steps
      obtain ⟨q, pr, se⟩ := s
      simp only at h1
      subst h1
      exact ip_mem_ingest_seen M o1 se pr hc
    have hr : ((apply_rules o2).run (steps M (ingest_next M s).1 k).seen_ips).1.repeated_ip
        = decide ((o2.ip_address.getD []) ∈ (steps M (ingest_next M s).1 k).seen_ips) := rfl
    rw [hr, hip]
    exact decide_eq_true_iff.mpr hmem

/-- First concrete incoming order used by witnesses. -/
def order_one : OrderDict :=
  ⟨some 1, some ("B St".data), some ("B St".data), some ("a@b.c".data),
   some ("5551234567".data), some ("1.1.1.1".data), some 100⟩

/-- Second concrete incoming order, sharing the first order's IP. -/
def order_two : OrderDict :=
  ⟨some 2, some ("C St".data), some ("C St".data), some ("d@e.f".data),
   some ("5559876543".data), some ("1.1.1.1".data), some 200⟩

/-- A fresh session state whose queue holds the two concrete orders. -/
def state_zero : AppState := ⟨[order_one, order_two], [], []⟩

/-- The constant-zero classifier used by witnesses. -/
def model_zero : List ℚ → ℚ := fun _ => 0

/-- Witness for C2: processing the two same-IP orders back to back from a
fresh state gives repeated_ip false then true. -/
theorem C2_repeated_ip_ordering_witness :
    ((ingest_next model_zero state_zero).2 =
        some (((apply_rules order_one).run state_zero.seen_ips).1) ∧
      ((apply_rules order_one).run state_zero.seen_ips).1.repeated_ip = false) ∧
    ((ingest_next model_zero (steps model_zero (ingest_next model_zero state_zero).1 0)).2 =
        some (((apply_rules order_two).run
          (steps model_zero (ingest_next model_zero state_zero).1 0).seen_ips).1) ∧
      ((apply_rules order_two).run
        (steps model_zero (ingest_next model_zero state_zero).1 0).seen_ips).1.repeated_ip = true) :=
  C2_repeated_ip_ordering model_zero state_zero order_one order_two [order_two] [] 0
    rfl (by decide) (by decide) rfl rfl

/-- A concrete order that has every field except its IP address. -/
def order_missing_ip : OrderDict :=
  ⟨some 1, some ("B St".data), some ("B St".data), some ("a@b.c".data),
   some ("5551234567".data), none, some 100⟩

/-- A concrete order that has every field except its phone number. -/
def order_missing_phone : OrderDict :=
  ⟨some 1, some ("B St".data), some ("B St".data), some ("a@b.c".data),
   none, some ("1.1.1.1".data), some 100⟩

/-- C7 counterexample: an order missing only its IP address does raise a
KeyError naming ip_address, but only after the order has been fully scored
with an empty-string default and its verdict appended to the processed table;
and an order missing its phone has suspicious_phone computed from the
empty-string default instead of failing. So the pipeline does substitute
silent defaults for required scoring fields. -/
theorem C7_counterexample :
    (ingest model_zero order_missing_ip [] []).err = some ("ip_address".data) ∧
    (ingest model_zero order_missing_ip [] []).processed ≠ [] ∧
    ((apply_rules order_missing_phone).run []).1.suspicious_phone = true := by
  refine ⟨rfl, ?_, rfl⟩
  decide

/-- C7 amended: an order missing any required scoring field makes the handler
raise a KeyError that names one of the order's missing keys (amount at the
feature step, the echoed fields at the result entry, ip_address at the
seen-set update), though get-defaulted rule fields are first silently read as
empty strings. -/
theorem C7_amended_keyerror (M : List ℚ → ℚ) (o : OrderDict) (seen : List Str)
    (processed : List ResultEntry)
    (h : o.amount = none ∨ o.ip_address = none ∨ o.email = none ∨ o.phone = none ∨
      o.billing_address = none ∨ o.shipping_address = none) :
    ∃ f, (ingest M o seen processed).err = some f ∧ missingField o f := by
  obtain ⟨oid, ba, sa, em, ph, ip, amt⟩ := o
  rcases amt with _ | a
  · exact ⟨"amount".data, rfl, Or.inl ⟨rfl, rfl⟩⟩
  rcases oid with _ | oidv
  · exact ⟨"order_id".data, rfl, Or.inr (Or.inl ⟨rfl, rfl⟩)⟩
  rcases em with _ | emv
  · exact ⟨"email".data, rfl, Or.inr (Or.inr (Or.inl ⟨rfl, rfl⟩))⟩
  rcases ph with _ | phv
  · exact ⟨"phone".data, rfl, Or.inr (Or.inr (Or.inr (Or.inl ⟨rfl, rfl⟩)))⟩
  rcases ba with _ | bav
  · exact ⟨"billing_address".data, rfl,
      Or.inr (Or.inr (Or.inr (Or.inr (Or.inl ⟨rfl, rfl⟩))))⟩
  rcases sa with _ | sav
  · exact ⟨"shipping_address".data, rfl,
      Or.inr (Or.inr (Or.inr (Or.inr (Or.inr (Or.inl ⟨rfl, rfl⟩)))))⟩
  rcases ip with _ | ipv
  · exact ⟨"ip_address".data, rfl,
      Or.inr (Or.inr (Or.inr (Or.inr (Or.inr (Or.inr ⟨rfl, rfl⟩)))))⟩
  · simp at h

/-- Witness for the amended C7 at the order missing only its IP address. -/
theorem C7_amended_keyerror_witness :
    ∃ f, (ingest model_zero order_missing_ip [] []).err = some f ∧
      missingField order_missing_ip f :=
  C7_amended_keyerror model_zero order_missing_ip [] [] (Or.inr (Or.inl rfl))

/-- A concrete ambient RNG state used to exercise the generator. -/
def seed_a : RngState := List.range 100

/-- Helper: the labelled dataset is the raw dataset with labels attached, and
label assignment does not consume randomness. -/
theorem generate_mock_data_raw (n : Nat) (s : RngState) :
    (generate_mock_data n s).1 = (generate_raw n s).1.map add_label ∧
    (generate_mock_data n s).2 = (generate_raw n s).2 := by
  unfold generate_mock_data
  rcases h : generate_raw n s with ⟨rows, s1⟩
  simp

/-- Helper: attaching labels leaves the amount column unchanged. -/
theorem map_amount_add_label (rows : List RawRow) :
    (rows.map add_label).map (fun r => r.raw.amount) = rows.map (fun r => r.amount) := by
  induction rows with
  | nil => rfl
  | cons r rs ih => simp [add_label, ih]

set_option maxRecDepth 10000 in
/-- C5 counterexample: generate_mock_data takes no per-invocation seed — the
module seeds the global generator once at import — so two successive calls
run on an advancing RNG state and return different datasets (here the amount
columns already differ). This refutes per-invocation seedability as claimed. -/
theorem C5_counterexample :
    ¬ ((generate_mock_data 1 seed_a).1 =
        (generate_mock_data 1 (generate_mock_data 1 seed_a).2).1) := by
  intro h
  have h2 := congrArg (List.map fun r => r.raw.amount) h
  rw [(generate_mock_data_raw 1 seed_a).2] at h2
  rw [(generate_mock_data_raw 1 seed_a).1,
    (generate_mock_data_raw 1 (generate_raw 1 seed_a).2).1,
    map_amount_add_label, map_amount_add_label] at h2
  exact absurd h2 (by decide)

/-- C5 amended: the generator is deterministic in the ambient RNG state: its
output depends only on that state and on n, so a fresh process start (whose
state is fixed by the module-level seed 42) always reproduces the identical
dataset sequence. -/
theorem C5_amended_state_deterministic (n : Nat) (s1 s2 : RngState) (h : s1 = s2) :
    generate_mock_data n s1 = generate_mock_data n s2 := by
  rw [h]

/-- Witness for the amended C5 at a concrete state. -/
theorem C5_amended_state_deterministic_witness :
    generate_mock_data 1 seed_a = generate_mock_data 1 seed_a :=
  C5_amended_state_deterministic 1 seed_a seed_a rfl
